import Mathlib

/-!
# Verification of the parking reservation engine (src/server.js)

A shallow embedding of the MongoDB-backed parking server.  The document
store is modelled as lists of records (one list per collection), MongoDB's
`findOne` as `List.find?` (first match in natural order), `updateOne` as
`updateFirst` (update of the first matching document), `deleteMany` as
`List.filter`, and `insertOne`/`insertMany` as appends, with `_id` values
drawn from a monotone counter `nextId`.  Statuses and vehicle types are
kept as strings exactly as the JavaScript compares them (including the
`toLowerCase()` normalisation and the fact that any vehicle type other
than `"car"` falls into the bike branch of the counter updates).
-/

namespace Parking

/-- A document of the `parking_areas` collection.  `total_*` come from the
request body (non-negative counts); `available_*`/`booked_*` are mutated by
MongoDB `$inc` and may in principle go negative, hence `Int`. -/
structure ParkingArea where
  id : Nat
  name : String
  lat : Int
  lng : Int
  total_car_slots : Nat
  available_car_slots : Int
  booked_car_slots : Int
  total_bike_slots : Nat
  available_bike_slots : Int
  booked_bike_slots : Int
  deriving Repr, DecidableEq

/-- A document of the `slots` collection. -/
structure Slot where
  id : Nat
  parking_id : Nat
  slot_number : Nat
  vehicle_type : String
  status : String
  current_booking_id : Option Nat
  deriving Repr, DecidableEq

/-- A document of the `bookings` collection.  `entry_time` is the number of
milliseconds of the stored date. -/
structure Booking where
  id : Nat
  parking_id : Nat
  slot_id : Nat
  vehicle_type : String
  number_plate : String
  phone : String
  entry_time : Nat
  status : String
  exit_time : Option Nat
  amount : Option Int
  deriving Repr, DecidableEq

/-- A document of the `register_login` collection (parking-area owners). -/
structure Owner where
  phone : String
  parking_area_name : String
  password : String
  deriving Repr, DecidableEq

/-- The shared database state: the four collections touched by the
reservation engine, plus the id supply standing for MongoDB ObjectId
generation. -/
structure DB where
  areas : List ParkingArea
  slots : List Slot
  bookings : List Booking
  owners : List Owner
  nextId : Nat
  deriving Repr, DecidableEq

/-- MongoDB `updateOne`: apply `f` to the first element satisfying `p`,
leave everything else unchanged. -/
def updateFirst (p : α → Bool) (f : α → α) : List α → List α
  | [] => []
  | x :: xs => if p x then f x :: xs else x :: updateFirst p f xs

/-- Request body of `POST /api/bookings` (user) / `POST /api/owner/bookings`. -/
structure ReserveRequest where
  parking_id : Nat
  slot_id : Nat
  vehicle_type : String
  number_plate : String
  phone : String
  entry_time : Nat
  deriving Repr, DecidableEq

/-- Outcome of a reservation: HTTP 200 with the booking id and the slot's
display number, or HTTP 400 "Slot not available". -/
inductive ReserveResult where
  | slotBooked (booking_id : Nat) (slot_number : Nat)
  | slotUnavailable
  deriving Repr, DecidableEq

/-- JavaScript's `toLowerCase()` as the source applies it to vehicle types:
`Char.toLower` mapped over the characters.  (Core's `String.toLower` is the
same function on these strings but is defined by well-founded recursion and
does not reduce definitionally, so the list-map form is used.) -/
def strLower (s : String) : String := ⟨s.data.map Char.toLower⟩

/-- The `$inc` document applied to `parking_areas` by a reservation
(server.js lines 283-285): the branch is chosen by the request's
`vehicle_type.toLowerCase()`; anything other than `"car"` takes the bike
branch. -/
def areaIncReserve (vt : String) (a : ParkingArea) : ParkingArea :=
  if strLower vt = "car" then
    { a with available_car_slots := a.available_car_slots - 1,
             booked_car_slots := a.booked_car_slots + 1 }
  else
    { a with available_bike_slots := a.available_bike_slots - 1,
             booked_bike_slots := a.booked_bike_slots + 1 }

/-- The read phase of `POST /api/bookings` (server.js lines 261-264): the
`findOne` on `slots` followed by the availability check.  Returns the slot
snapshot when the handler proceeds. -/
def reserveCheck (db : DB) (slot_id : Nat) : Option Slot :=
  match db.slots.find? (fun s => s.id == slot_id) with
  | none => none
  | some s => if s.status = "available" then some s else none

/-- The write phase of `POST /api/bookings` (server.js lines 266-289):
insert the new active booking, mark the slot booked with the booking
reference, and `$inc` the counters of the *request's* parking area for the
*request's* vehicle type.  Returns the new booking id. -/
def reserveWrites (db : DB) (r : ReserveRequest) : Nat × DB :=
  let bid := db.nextId
  let booking : Booking :=
    { id := bid, parking_id := r.parking_id, slot_id := r.slot_id,
      vehicle_type := strLower r.vehicle_type, number_plate := r.number_plate,
      phone := r.phone, entry_time := r.entry_time, status := "active",
      exit_time := none, amount := none }
  let db1 := { db with bookings := db.bookings ++ [booking], nextId := db.nextId + 1 }
  let db2 := { db1 with
    slots := updateFirst (fun s => s.id == r.slot_id)
      (fun s => { s with status := "booked", current_booking_id := some bid }) db1.slots }
  let db3 := { db2 with
    areas := updateFirst (fun a => a.id == r.parking_id)
      (areaIncReserve r.vehicle_type) db2.areas }
  (bid, db3)

/-- `POST /api/bookings` (server.js lines 256-300): check then write.  The
two phases are two separate round trips to the store in the source; the
sequential composition here is the behaviour of one request running in
isolation. -/
def reserveSlot (db : DB) (r : ReserveRequest) : ReserveResult × DB :=
  match reserveCheck db r.slot_id with
  | none => (.slotUnavailable, db)
  | some slot =>
      let (bid, db') := reserveWrites db r
      (.slotBooked bid slot.slot_number, db')

/-- Request body of `POST /api/owner/bookings/complete`. -/
structure CompleteRequest where
  slot_id : Nat
  parking_id : Nat
  vehicle_type : String
  exit_time : Nat
  amount : Int
  deriving Repr, DecidableEq

/-- Outcome of a completion: HTTP 200, or HTTP 400 "No active booking found". -/
inductive CompleteResult where
  | completed
  | noActiveBooking
  deriving Repr, DecidableEq

/-- The `$inc` document applied to `parking_areas` by a completion
(server.js lines 579-581), again keyed on the *request's* vehicle type. -/
def areaIncComplete (vt : String) (a : ParkingArea) : ParkingArea :=
  if strLower vt = "car" then
    { a with available_car_slots := a.available_car_slots + 1,
             booked_car_slots := a.booked_car_slots - 1 }
  else
    { a with available_bike_slots := a.available_bike_slots + 1,
             booked_bike_slots := a.booked_bike_slots - 1 }

/-- The filter of the `bookings.updateOne` in the completion handler
(server.js line 562). -/
def activeFor (slot_id : Nat) (b : Booking) : Bool :=
  b.slot_id == slot_id && b.status == "active"

/-- `POST /api/owner/bookings/complete` (server.js lines 557-591): mark the
first active booking on the slot completed; if none matched, stop with no
writes; otherwise free the slot and `$inc` the counters of the request's
parking area for the request's vehicle type. -/
def completeBooking (db : DB) (r : CompleteRequest) : CompleteResult × DB :=
  match db.bookings.find? (activeFor r.slot_id) with
  | none => (.noActiveBooking, db)
  | some _ =>
      let db1 := { db with
        bookings := updateFirst (activeFor r.slot_id)
          (fun b => { b with status := "completed",
                             exit_time := some r.exit_time,
                             amount := some r.amount }) db.bookings }
      let db2 := { db1 with
        slots := updateFirst (fun s => s.id == r.slot_id)
          (fun s => { s with status := "available", current_booking_id := none }) db1.slots }
      let db3 := { db2 with
        areas := updateFirst (fun a => a.id == r.parking_id)
          (areaIncComplete r.vehicle_type) db2.areas }
      (.completed, db3)

/-- Request body of `POST /api/owner/parking_areas`.  `name` is the owner's
phone number (used to update `register_login`); `parking_area_name` is the
area's display name. -/
structure AreaRequest where
  name : String
  parking_area_name : String
  lat : Int
  lng : Int
  total_car_slots : Nat
  total_bike_slots : Nat
  deriving Repr, DecidableEq

/-- The freshly generated slot documents of one vehicle type (server.js
lines 387-401 / 437-450): numbers `1..n`, all available, no booking
reference, ids drawn consecutively from `startId`. -/
def mkSlots (pid startId n : Nat) (vt : String) : List Slot :=
  (List.range n).map (fun i =>
    { id := startId + i, parking_id := pid, slot_number := i + 1,
      vehicle_type := vt, status := "available", current_booking_id := none })

/-- `POST /api/owner/parking_areas` (server.js lines 353-459).  Existing
area: update location and totals; when either requested total differs from
the stored total, delete all of the area's slots, regenerate them, and
reset the four counters.  No existing area: insert it with
`available = total, booked = 0` and generate its slots.  Returns the new
area's id on creation. -/
def createOrResizeArea (db : DB) (r : AreaRequest) : DB × Option Nat :=
  match db.areas.find? (fun a => a.name == r.parking_area_name) with
  | some existingArea =>
      let carSlotsChanged := r.total_car_slots ≠ existingArea.total_car_slots
      let bikeSlotsChanged := r.total_bike_slots ≠ existingArea.total_bike_slots
      let db1 := { db with
        areas := updateFirst (fun a => a.name == r.parking_area_name)
          (fun a => { a with lat := r.lat, lng := r.lng,
                             total_car_slots := r.total_car_slots,
                             total_bike_slots := r.total_bike_slots }) db.areas }
      let db2 := { db1 with
        owners := updateFirst (fun o => o.phone == r.name)
          (fun o => { o with parking_area_name := r.parking_area_name }) db1.owners }
      if carSlotsChanged ∨ bikeSlotsChanged then
        let pid := existingArea.id
        let db3 := { db2 with slots := db2.slots.filter (fun s => s.parking_id != pid) }
        let newCarSlots := mkSlots pid db3.nextId r.total_car_slots "car"
        let newBikeSlots := mkSlots pid (db3.nextId + r.total_car_slots) r.total_bike_slots "bike"
        let db4 := { db3 with
          slots := db3.slots ++ newCarSlots ++ newBikeSlots,
          nextId := db3.nextId + r.total_car_slots + r.total_bike_slots }
        let db5 := { db4 with
          areas := updateFirst (fun a => a.id == pid)
            (fun a => { a with available_car_slots := (r.total_car_slots : Int),
                               booked_car_slots := 0,
                               available_bike_slots := (r.total_bike_slots : Int),
                               booked_bike_slots := 0 }) db4.areas }
        (db5, none)
      else
        (db2, none)
  | none =>
      let pid := db.nextId
      let area : ParkingArea :=
        { id := pid, name := r.parking_area_name, lat := r.lat, lng := r.lng,
          total_car_slots := r.total_car_slots,
          available_car_slots := (r.total_car_slots : Int), booked_car_slots := 0,
          total_bike_slots := r.total_bike_slots,
          available_bike_slots := (r.total_bike_slots : Int), booked_bike_slots := 0 }
      let db1 := { db with areas := db.areas ++ [area], nextId := db.nextId + 1 }
      let db2 := { db1 with
        owners := updateFirst (fun o => o.phone == r.name)
          (fun o => { o with parking_area_name := r.parking_area_name }) db1.owners }
      let newCarSlots := mkSlots pid db2.nextId r.total_car_slots "car"
      let newBikeSlots := mkSlots pid (db2.nextId + r.total_car_slots) r.total_bike_slots "bike"
      let db3 := { db2 with
        slots := db2.slots ++ newCarSlots ++ newBikeSlots,
        nextId := db2.nextId + r.total_car_slots + r.total_bike_slots }
      (db3, some pid)

/-- One element of the response of `GET /api/users/bookings/:phone`: the
booking document spread into the response object together with the
denormalised `location` and `slot_number` fields.  `slot_number = none`
stands for the `'Unknown Slot'` placeholder the source substitutes when
the slot document is missing. -/
structure EnrichedBooking where
  booking : Booking
  location : String
  slot_number : Option Nat
  deriving Repr, DecidableEq

/-- The descending-`entry_time` order used by `.sort(\x7b entry_time: -1 \x7d)`. -/
def newerFirst (a b : Booking) : Prop := b.entry_time ≤ a.entry_time

instance : DecidableRel newerFirst := fun a b => Nat.decLe b.entry_time a.entry_time

instance : IsTotal Booking newerFirst :=
  ⟨fun a b => Nat.le_total b.entry_time a.entry_time⟩

instance : IsTrans Booking newerFirst :=
  ⟨fun _ _ _ hab hbc => Nat.le_trans hbc hab⟩

/-- `GET /api/users/bookings/:phone` (server.js lines 171-191): the user's
bookings, sorted newest `entry_time` first, each enriched with the area's
name (`'Unknown Location'` if the area is gone) and the slot's number. -/
def listUserBookings (db : DB) (phone : String) : List EnrichedBooking :=
  let mine := db.bookings.filter (fun b => b.phone == phone)
  let sorted := List.insertionSort newerFirst mine
  sorted.map (fun b =>
    { booking := b,
      location :=
        match db.areas.find? (fun a => a.id == b.parking_id) with
        | some a => a.name
        | none => "Unknown Location",
      slot_number :=
        match db.slots.find? (fun s => s.id == b.slot_id) with
        | some s => some s.slot_number
        | none => none })

/-- The per-area, per-vehicle-type counter invariant of the spec:
`available + booked = total` for both vehicle types. -/
def areaOk (a : ParkingArea) : Prop :=
  a.available_car_slots + a.booked_car_slots = (a.total_car_slots : Int) ∧
  a.available_bike_slots + a.booked_bike_slots = (a.total_bike_slots : Int)

instance (a : ParkingArea) : Decidable (areaOk a) := by
  unfold areaOk; infer_instance

/-! ### Generic lemmas about `updateFirst` -/

theorem updateFirst_of_find?_eq_none {α : Type} {p : α → Bool} {f : α → α} :
    ∀ {l : List α}, l.find? p = none → updateFirst p f l = l
  | [], _ => rfl
  | x :: xs, h => by
    rw [List.find?_cons] at h
    cases hx : p x with
    | true => simp [hx] at h
    | false =>
      simp only [hx] at h
      simp [updateFirst, hx, updateFirst_of_find?_eq_none h]

theorem updateFirst_forall {α : Type} {P : α → Prop} {p : α → Bool} {f : α → α}
    (hf : ∀ a, P a → P (f a)) :
    ∀ {l : List α}, (∀ a ∈ l, P a) → ∀ b ∈ updateFirst p f l, P b
  | [], _, b, hb => absurd hb (List.not_mem_nil b)
  | x :: xs, h, b, hb => by
    unfold updateFirst at hb
    by_cases hx : p x
    · simp only [hx, if_pos] at hb
      rcases List.mem_cons.mp hb with hb | hb
      · exact hb ▸ hf x (h x (List.mem_cons_self x xs))
      · exact h b (List.mem_cons_of_mem x hb)
    · simp only [hx, if_neg, Bool.false_eq_true] at hb
      rcases List.mem_cons.mp hb with hb | hb
      · exact hb ▸ h x (List.mem_cons_self x xs)
      · exact updateFirst_forall hf (fun a ha => h a (List.mem_cons_of_mem x ha)) b hb

theorem updateFirst_forall_of_find? {α : Type} {P : α → Prop} {p : α → Bool} {f : α → α} :
    ∀ {l : List α} {A : α}, l.find? p = some A → (∀ a ∈ l, P a) → P (f A) →
      ∀ b ∈ updateFirst p f l, P b
  | [], _, hA, _, _, _, _ => by simp at hA
  | x :: xs, A, hA, h, hfA, b, hb => by
    rw [List.find?_cons] at hA
    unfold updateFirst at hb
    cases hx : p x with
    | true =>
      simp only [hx, Option.some.injEq] at hA
      simp only [hx, if_pos] at hb
      rcases List.mem_cons.mp hb with hb | hb
      · exact hb ▸ hA ▸ hfA
      · exact h b (List.mem_cons_of_mem x hb)
    | false =>
      simp only [hx] at hA
      simp only [hx, Bool.false_eq_true, if_neg] at hb
      rcases List.mem_cons.mp hb with hb | hb
      · exact hb ▸ h x (List.mem_cons_self x xs)
      · exact updateFirst_forall_of_find? hA (fun a ha => h a (List.mem_cons_of_mem x ha))
          hfA b hb

theorem find?_updateFirst {α : Type} {p : α → Bool} {f : α → α}
    (hpf : ∀ x, p (f x) = p x) :
    ∀ l : List α, (updateFirst p f l).find? p = (l.find? p).map f
  | [] => rfl
  | x :: xs => by
    cases hx : p x with
    | true => simp [updateFirst, hx, List.find?_cons, hpf x]
    | false => simp [updateFirst, hx, List.find?_cons, find?_updateFirst hpf xs]

theorem updateFirst_updateFirst {α : Type} {p : α → Bool} {f g : α → α}
    (hpf : ∀ x, p (f x) = p x) :
    ∀ l : List α, updateFirst p g (updateFirst p f l) = updateFirst p (fun x => g (f x)) l
  | [] => rfl
  | x :: xs => by
    cases hx : p x with
    | true => simp [updateFirst, hx, hpf x]
    | false => simp [updateFirst, hx, updateFirst_updateFirst hpf xs]

theorem updateFirst_congr_id {α : Type} {p : α → Bool} {f : α → α}
    (hf : ∀ x, f x = x) : ∀ l : List α, updateFirst p f l = l
  | [] => rfl
  | x :: xs => by
    by_cases hx : p x
    · simp [updateFirst, hx, hf x]
    · simp [updateFirst, hx, updateFirst_congr_id hf xs]

theorem map_updateFirst {α β : Type} {p : α → Bool} {f : α → α} {key : α → β}
    (hk : ∀ x, key (f x) = key x) :
    ∀ l : List α, (updateFirst p f l).map key = l.map key
  | [] => rfl
  | x :: xs => by
    by_cases hx : p x
    · simp [updateFirst, hx, hk x]
    · simp [updateFirst, hx, map_updateFirst hk xs]

theorem find?_key_of_nodup {α β : Type} [DecidableEq β] {key : α → β} :
    ∀ {l : List α} {A : α}, (l.map key).Nodup → A ∈ l →
      l.find? (fun x => key x == key A) = some A
  | [], A, _, hA => absurd hA (List.not_mem_nil A)
  | x :: xs, A, hnd, hA => by
    rw [List.map_cons, List.nodup_cons] at hnd
    rcases List.mem_cons.mp hA with rfl | hA
    · exact List.find?_cons_of_pos _ (by simp)
    · have hne : key x ≠ key A := fun h => hnd.1 (h ▸ List.mem_map_of_mem key hA)
      rw [List.find?_cons_of_neg _ (by simp [hne])]
      exact find?_key_of_nodup hnd.2 hA

/-- Combining the two `updateOne`s of the destructive-resize branch (first
keyed by area name, then by area id) into one update of the same (first)
matching document, valid because `_id`s are unique. -/
theorem updateFirst_name_then_id {X : String}
    {f1 f2 : ParkingArea → ParkingArea} {A : ParkingArea}
    (hid : ∀ x, (f1 x).id = x.id) :
    ∀ {l : List ParkingArea}, (l.map (·.id)).Nodup →
      l.find? (fun a => a.name == X) = some A →
      updateFirst (fun a => a.id == A.id) f2 (updateFirst (fun a => a.name == X) f1 l)
        = updateFirst (fun a => a.name == X) (fun a => f2 (f1 a)) l
  | [], _, hA => by simp at hA
  | x :: xs, hnd, hA => by
    rw [List.map_cons, List.nodup_cons] at hnd
    rw [List.find?_cons] at hA
    cases hx : (x.name == X) with
    | true =>
      simp only [hx, Option.some.injEq] at hA
      subst hA
      simp [updateFirst, hx, hid x]
    | false =>
      simp only [hx] at hA
      have hAmem : A ∈ xs := List.mem_of_find?_eq_some hA
      have hne : x.id ≠ A.id := fun h => hnd.1 (h ▸ List.mem_map_of_mem (·.id) hAmem)
      have hxid : (x.id == A.id) = false := by simp [hne]
      simp only [updateFirst, hx, hxid, Bool.false_eq_true, if_false]
      exact congrArg (x :: ·) (updateFirst_name_then_id hid hnd.2 hA)

/-! ### Facts about the counter updates -/

theorem areaIncReserve_id (vt : String) (a : ParkingArea) :
    (areaIncReserve vt a).id = a.id := by
  unfold areaIncReserve; split <;> rfl

theorem areaIncComplete_id (vt : String) (a : ParkingArea) :
    (areaIncComplete vt a).id = a.id := by
  unfold areaIncComplete; split <;> rfl

theorem areaOk_areaIncReserve (vt : String) (a : ParkingArea) (h : areaOk a) :
    areaOk (areaIncReserve vt a) := by
  unfold areaOk areaIncReserve at *
  split <;> simp only [] <;> exact ⟨by omega, by omega⟩

theorem areaOk_areaIncComplete (vt : String) (a : ParkingArea) (h : areaOk a) :
    areaOk (areaIncComplete vt a) := by
  unfold areaOk areaIncComplete at *
  split <;> simp only [] <;> exact ⟨by omega, by omega⟩

theorem areaIncComplete_areaIncReserve (vt : String) (a : ParkingArea) :
    areaIncComplete vt (areaIncReserve vt a) = a := by
  unfold areaIncReserve areaIncComplete
  by_cases h : strLower vt = "car" <;> cases a <;> simp [h]

/-! ### Concrete states used by the witnesses -/

/-- One area "Lot A" (id 0) with one available car slot (id 1) and one
available bike slot (id 2). -/
def exDB : DB :=
  { areas := [{ id := 0, name := "Lot A", lat := 10, lng := 76,
                total_car_slots := 1, available_car_slots := 1, booked_car_slots := 0,
                total_bike_slots := 1, available_bike_slots := 1, booked_bike_slots := 0 }],
    slots := [
      { id := 1, parking_id := 0, slot_number := 1, vehicle_type := "car",
        status := "available", current_booking_id := none },
      { id := 2, parking_id := 0, slot_number := 1, vehicle_type := "bike",
        status := "available", current_booking_id := none }],
    bookings := [], owners := [], nextId := 3 }

/-- The car slot of `exDB`. -/
def exCarSlot : Slot :=
  { id := 1, parking_id := 0, slot_number := 1, vehicle_type := "car",
    status := "available", current_booking_id := none }

/-- A well-formed reservation request for the car slot of `exDB`. -/
def exReserve : ReserveRequest :=
  { parking_id := 0, slot_id := 1, vehicle_type := "car",
    number_plate := "KL07A1", phone := "9000000001", entry_time := 100 }

/-- The completion request matching `exReserve`. -/
def exComplete : CompleteRequest :=
  { slot_id := 1, parking_id := 0, vehicle_type := "car",
    exit_time := 200, amount := 50 }

/-! ### C6 -/

/-- C6: a reservation against a slot that does not exist, or whose status
is not `available`, fails with "Slot not available" and leaves the whole
database unchanged (no booking inserted, no slot modified, no counter
touched). -/
theorem reserve_unavailable_unchanged (db : DB) (r : ReserveRequest)
    (h : db.slots.find? (fun s => s.id == r.slot_id) = none ∨
         ∃ s, db.slots.find? (fun s => s.id == r.slot_id) = some s ∧ s.status ≠ "available") :
    reserveSlot db r = (.slotUnavailable, db) := by
  have hck : reserveCheck db r.slot_id = none := by
    rcases h with h | ⟨s, hs, hst⟩
    · simp [reserveCheck, h]
    · simp [reserveCheck, hs, hst]
  unfold reserveSlot
  rw [hck]

/-- Witness for C6: reserving the nonexistent slot 99 of `exDB` fails and
changes nothing. -/
theorem reserve_unavailable_unchanged_witness :
    reserveSlot exDB { exReserve with slot_id := 99 } = (.slotUnavailable, exDB) :=
  reserve_unavailable_unchanged exDB _ (Or.inl (by decide))

/-! ### C7 -/

/-- C7: completion against a slot with no active booking fails with "No
active booking found" and leaves the whole database unchanged: the
`bookings.updateOne` matched nothing, and the slot and counter writes are
never reached. -/
theorem complete_no_active_unchanged (db : DB) (r : CompleteRequest)
    (h : ∀ b ∈ db.bookings, ¬(b.slot_id = r.slot_id ∧ b.status = "active")) :
    completeBooking db r = (.noActiveBooking, db) := by
  have hf : db.bookings.find? (activeFor r.slot_id) = none := by
    rw [List.find?_eq_none]
    intro b hb
    have hb' := h b hb
    simp only [activeFor, Bool.and_eq_true, beq_iff_eq, not_and]
    intro h1 h2
    exact hb' ⟨h1, h2⟩
  unfold completeBooking
  rw [hf]

/-- Witness for C7: completing slot 1 of the booking-free `exDB` fails and
changes nothing. -/
theorem complete_no_active_unchanged_witness :
    completeBooking exDB exComplete = (.noActiveBooking, exDB) :=
  complete_no_active_unchanged exDB _ (by decide)

/-! ### C10 -/

/-- C10: the reservation handler validates nothing beyond the slot's own
existence and availability.  For any request naming an available slot the
reservation succeeds — even if the request's `parking_id` is not the
slot's area or the request's `vehicle_type` is not the slot's type — and
the counters adjusted are those of the *request's* area id for the
*request's* vehicle type. -/
theorem reserve_no_membership_validation (db : DB) (r : ReserveRequest) (slot : Slot)
    (h1 : db.slots.find? (fun s => s.id == r.slot_id) = some slot)
    (h2 : slot.status = "available") :
    (reserveSlot db r).1 = .slotBooked db.nextId slot.slot_number ∧
    (reserveSlot db r).2.areas =
      updateFirst (fun a => a.id == r.parking_id) (areaIncReserve r.vehicle_type) db.areas := by
  have hck : reserveCheck db r.slot_id = some slot := by
    simp [reserveCheck, h1, h2]
  unfold reserveSlot
  rw [hck]
  exact ⟨rfl, rfl⟩

/-- Witness for C10: a request naming the *car* slot 1 of area 0 but
supplying vehicle type "bike" succeeds and corrupts area 0's *bike*
counters. -/
theorem reserve_no_membership_validation_witness :
    (reserveSlot exDB { exReserve with vehicle_type := "bike" }).1 = .slotBooked 3 1 ∧
    (reserveSlot exDB { exReserve with vehicle_type := "bike" }).2.areas =
      [{ id := 0, name := "Lot A", lat := 10, lng := 76,
         total_car_slots := 1, available_car_slots := 1, booked_car_slots := 0,
         total_bike_slots := 1, available_bike_slots := 0, booked_bike_slots := 1 }] := by
  have h := reserve_no_membership_validation exDB { exReserve with vehicle_type := "bike" }
    exCarSlot (by decide) (by decide)
  exact ⟨h.1, h.2.trans (by decide)⟩

/-! ### Shape lemmas for the create/resize handler -/

/-- On the destructive-resize path the two `parking_areas.updateOne`s amount
to one update of the area document: location and totals from the request,
counters reset to `available = total, booked = 0`. -/
theorem resize_areas_eq (db : DB) (q : AreaRequest) (A : ParkingArea)
    (hA : db.areas.find? (fun a => a.name == q.parking_area_name) = some A)
    (hnd : (db.areas.map (·.id)).Nodup)
    (hch : q.total_car_slots ≠ A.total_car_slots ∨ q.total_bike_slots ≠ A.total_bike_slots) :
    (createOrResizeArea db q).1.areas =
      updateFirst (fun a => a.name == q.parking_area_name)
        (fun a => { a with lat := q.lat, lng := q.lng,
                           total_car_slots := q.total_car_slots,
                           total_bike_slots := q.total_bike_slots,
                           available_car_slots := (q.total_car_slots : Int),
                           booked_car_slots := 0,
                           available_bike_slots := (q.total_bike_slots : Int),
                           booked_bike_slots := 0 }) db.areas := by
  simp only [createOrResizeArea, hA]
  rw [if_pos hch]
  exact @updateFirst_name_then_id q.parking_area_name
    (fun a => { a with lat := q.lat, lng := q.lng,
                       total_car_slots := q.total_car_slots,
                       total_bike_slots := q.total_bike_slots })
    (fun a => { a with available_car_slots := (q.total_car_slots : Int),
                       booked_car_slots := 0,
                       available_bike_slots := (q.total_bike_slots : Int),
                       booked_bike_slots := 0 })
    A (fun _ => rfl) db.areas hnd hA

/-- On the destructive-resize path the slot collection becomes: every other
area's slots, then the regenerated car slots, then the regenerated bike
slots. -/
theorem resize_slots_eq (db : DB) (q : AreaRequest) (A : ParkingArea)
    (hA : db.areas.find? (fun a => a.name == q.parking_area_name) = some A)
    (hch : q.total_car_slots ≠ A.total_car_slots ∨ q.total_bike_slots ≠ A.total_bike_slots) :
    (createOrResizeArea db q).1.slots =
      db.slots.filter (fun s => s.parking_id != A.id)
        ++ mkSlots A.id db.nextId q.total_car_slots "car"
        ++ mkSlots A.id (db.nextId + q.total_car_slots) q.total_bike_slots "bike" := by
  simp only [createOrResizeArea, hA]
  rw [if_pos hch]

/-- No branch of the create/resize handler touches the `bookings`
collection. -/
theorem createOrResizeArea_bookings (db : DB) (q : AreaRequest) :
    (createOrResizeArea db q).1.bookings = db.bookings := by
  cases hA : db.areas.find? (fun a => a.name == q.parking_area_name) with
  | none => simp only [createOrResizeArea, hA]
  | some A =>
      by_cases hch : q.total_car_slots ≠ A.total_car_slots ∨
          q.total_bike_slots ≠ A.total_bike_slots
      · simp only [createOrResizeArea, hA]
        rw [if_pos hch]
      · simp only [createOrResizeArea, hA]
        rw [if_neg hch]

/-! ### C1 -/

/-- C1: for every area and each vehicle type, `available + booked = total`
holds after each engine operation (reserve, complete, create/resize),
starting from any state in which it holds for every area.  The hypothesis
`hnd` says the area `_id`s are pairwise distinct, which MongoDB guarantees
through the unique index on `_id`. -/
theorem counters_invariant (db : DB)
    (hinv : ∀ a ∈ db.areas, areaOk a)
    (hnd : (db.areas.map (·.id)).Nodup) :
    (∀ r : ReserveRequest, ∀ a ∈ (reserveSlot db r).2.areas, areaOk a) ∧
    (∀ c : CompleteRequest, ∀ a ∈ (completeBooking db c).2.areas, areaOk a) ∧
    (∀ q : AreaRequest, ∀ a ∈ (createOrResizeArea db q).1.areas, areaOk a) := by
  refine ⟨?_, ?_, ?_⟩
  · intro r a ha
    unfold reserveSlot at ha
    cases hck : reserveCheck db r.slot_id with
    | none => rw [hck] at ha; exact hinv a ha
    | some s =>
        rw [hck] at ha
        exact updateFirst_forall (areaOk_areaIncReserve r.vehicle_type) hinv a ha
  · intro c a ha
    unfold completeBooking at ha
    cases hf : db.bookings.find? (activeFor c.slot_id) with
    | none => rw [hf] at ha; exact hinv a ha
    | some b =>
        rw [hf] at ha
        exact updateFirst_forall (areaOk_areaIncComplete c.vehicle_type) hinv a ha
  · intro q a ha
    cases hA : db.areas.find? (fun x => x.name == q.parking_area_name) with
    | none =>
        simp only [createOrResizeArea, hA] at ha
        rcases List.mem_append.mp ha with h | h
        · exact hinv a h
        · have he := List.mem_singleton.mp h
          subst he
          unfold areaOk
          exact ⟨by simp, by simp⟩
    | some A =>
        by_cases hch : q.total_car_slots ≠ A.total_car_slots ∨
            q.total_bike_slots ≠ A.total_bike_slots
        · rw [resize_areas_eq db q A hA hnd hch] at ha
          refine updateFirst_forall ?_ hinv a ha
          intro x _
          unfold areaOk
          exact ⟨by simp, by simp⟩
        · simp only [createOrResizeArea, hA] at ha
          rw [if_neg hch] at ha
          push_neg at hch
          refine updateFirst_forall_of_find? hA hinv ?_ a ha
          have hok := hinv A (List.mem_of_find?_eq_some hA)
          unfold areaOk at hok
          show A.available_car_slots + A.booked_car_slots = (q.total_car_slots : Int) ∧
               A.available_bike_slots + A.booked_bike_slots = (q.total_bike_slots : Int)
          rw [hch.1, hch.2]
          exact hok

/-- The single area of `exDB` after `exReserve` books the car slot. -/
def exAreaBooked : ParkingArea :=
  { id := 0, name := "Lot A", lat := 10, lng := 76,
    total_car_slots := 1, available_car_slots := 0, booked_car_slots := 1,
    total_bike_slots := 1, available_bike_slots := 1, booked_bike_slots := 0 }

/-- Witness for C1: the invariant holds for the area of `exDB` after the
concrete reservation `exReserve`. -/
theorem counters_invariant_witness : areaOk exAreaBooked := by
  have h := counters_invariant exDB (by decide) (by decide)
  refine h.1 exReserve exAreaBooked ?_
  rw [show (reserveSlot exDB exReserve).2.areas = [exAreaBooked] from by decide]
  exact List.mem_singleton_self _

/-! ### Shape lemmas for the reservation write phase -/

theorem reserveWrites_bookings (db : DB) (r : ReserveRequest) :
    (reserveWrites db r).2.bookings = db.bookings ++
      [{ id := db.nextId, parking_id := r.parking_id, slot_id := r.slot_id,
         vehicle_type := strLower r.vehicle_type, number_plate := r.number_plate,
         phone := r.phone, entry_time := r.entry_time, status := "active",
         exit_time := none, amount := none }] := rfl

theorem reserveWrites_slots (db : DB) (r : ReserveRequest) :
    (reserveWrites db r).2.slots =
      updateFirst (fun s => s.id == r.slot_id)
        (fun s => { s with status := "booked", current_booking_id := some db.nextId })
        db.slots := rfl

theorem reserveWrites_areas (db : DB) (r : ReserveRequest) :
    (reserveWrites db r).2.areas =
      updateFirst (fun a => a.id == r.parking_id) (areaIncReserve r.vehicle_type)
        db.areas := rfl

/-! ### C4 -/

/-- C4: a successful reservation followed by a completion of the same slot
(the completion request carrying the same slot id, area id and vehicle
type as the reservation did) returns the slot to `available` with no
booking reference, and restores every area's counters — in particular the
owning area's four counters — to their pre-reservation values. -/
theorem reserve_complete_roundtrip (db : DB) (r : ReserveRequest) (slot : Slot)
    (h1 : db.slots.find? (fun s => s.id == r.slot_id) = some slot)
    (h2 : slot.status = "available")
    (c : CompleteRequest)
    (hs : c.slot_id = r.slot_id) (hp : c.parking_id = r.parking_id)
    (hv : c.vehicle_type = r.vehicle_type) :
    (completeBooking (reserveSlot db r).2 c).1 = .completed ∧
    (completeBooking (reserveSlot db r).2 c).2.areas = db.areas ∧
    (completeBooking (reserveSlot db r).2 c).2.slots.find? (fun s => s.id == r.slot_id) =
      some { slot with status := "available", current_booking_id := none } := by
  have hck : reserveCheck db r.slot_id = some slot := by
    simp [reserveCheck, h1, h2]
  have hres : (reserveSlot db r).2 = (reserveWrites db r).2 := by
    unfold reserveSlot
    rw [hck]
  have hbfind : ((reserveSlot db r).2).bookings.find? (activeFor c.slot_id) ≠ none := by
    rw [hres, hs, reserveWrites_bookings, List.find?_append]
    cases hfb : db.bookings.find? (activeFor r.slot_id) with
    | some b => simp
    | none => simp [activeFor]
  cases hfind : ((reserveSlot db r).2).bookings.find? (activeFor c.slot_id) with
  | none => exact absurd hfind hbfind
  | some b0 =>
      refine ⟨?_, ?_, ?_⟩
      · unfold completeBooking
        rw [hfind]
      · unfold completeBooking
        rw [hfind]
        show updateFirst (fun a => a.id == c.parking_id) (areaIncComplete c.vehicle_type)
            ((reserveSlot db r).2.areas) = db.areas
        rw [hres, reserveWrites_areas, hp, hv]
        rw [updateFirst_updateFirst (fun x => by rw [areaIncReserve_id])]
        exact updateFirst_congr_id (fun x => areaIncComplete_areaIncReserve r.vehicle_type x) _
      · unfold completeBooking
        rw [hfind]
        show (updateFirst (fun s => s.id == c.slot_id)
            (fun s => { s with status := "available", current_booking_id := none })
            ((reserveSlot db r).2.slots)).find? (fun s => s.id == r.slot_id) =
          some { slot with status := "available", current_booking_id := none }
        rw [hres, reserveWrites_slots, hs]
        rw [updateFirst_updateFirst (fun x => by rfl)]
        rw [find?_updateFirst (fun x => by rfl)]
        rw [h1]
        rfl

/-- Witness for C4: reserving the car slot of `exDB` and completing it with
the matching request restores the state as claimed. -/
theorem reserve_complete_roundtrip_witness :
    (completeBooking (reserveSlot exDB exReserve).2 exComplete).1 = .completed ∧
    (completeBooking (reserveSlot exDB exReserve).2 exComplete).2.areas = exDB.areas ∧
    (completeBooking (reserveSlot exDB exReserve).2 exComplete).2.slots.find?
        (fun s => s.id == exReserve.slot_id) =
      some { exCarSlot with status := "available", current_booking_id := none } :=
  reserve_complete_roundtrip exDB exReserve exCarSlot (by decide) (by decide)
    exComplete rfl rfl rfl

/-! ### Facts about the regenerated slots -/

theorem mkSlots_map_slot_number (pid startId n : Nat) (vt : String) :
    (mkSlots pid startId n vt).map (·.slot_number) = List.range' 1 n := by
  simp [mkSlots, List.map_map, Function.comp, List.range'_eq_map_range, Nat.add_comm]

theorem mem_mkSlots (pid startId n : Nat) (vt : String) (s : Slot)
    (hs : s ∈ mkSlots pid startId n vt) :
    s.parking_id = pid ∧ s.vehicle_type = vt ∧ s.status = "available" ∧
    s.current_booking_id = none ∧ startId ≤ s.id := by
  unfold mkSlots at hs
  rcases List.mem_map.mp hs with ⟨i, _, rfl⟩
  exact ⟨rfl, rfl, rfl, rfl, Nat.le_add_right _ _⟩

/-! ### C5 -/

/-- C5: resizing an existing area to capacities `(C, B)` that differ from
the stored totals leaves the area with exactly C car slots and B bike
slots numbered `1..N` per type, all `available` with no booking reference,
and with the area document carrying the new totals and counters
`available_car = C, booked_car = 0, available_bike = B, booked_bike = 0`.
`hnd` is MongoDB's `_id` uniqueness. -/
theorem resize_resets (db : DB) (q : AreaRequest) (A : ParkingArea)
    (hA : db.areas.find? (fun a => a.name == q.parking_area_name) = some A)
    (hnd : (db.areas.map (·.id)).Nodup)
    (hch : q.total_car_slots ≠ A.total_car_slots ∨ q.total_bike_slots ≠ A.total_bike_slots) :
    ((createOrResizeArea db q).1.slots.filter
        (fun s => s.parking_id == A.id && s.vehicle_type == "car")).map (·.slot_number) =
      List.range' 1 q.total_car_slots ∧
    ((createOrResizeArea db q).1.slots.filter
        (fun s => s.parking_id == A.id && s.vehicle_type == "bike")).map (·.slot_number) =
      List.range' 1 q.total_bike_slots ∧
    (∀ s ∈ (createOrResizeArea db q).1.slots, s.parking_id = A.id →
        s.status = "available" ∧ s.current_booking_id = none) ∧
    (createOrResizeArea db q).1.areas.find? (fun a => a.name == q.parking_area_name) =
      some { A with lat := q.lat, lng := q.lng,
                    total_car_slots := q.total_car_slots,
                    total_bike_slots := q.total_bike_slots,
                    available_car_slots := (q.total_car_slots : Int),
                    booked_car_slots := 0,
                    available_bike_slots := (q.total_bike_slots : Int),
                    booked_bike_slots := 0 } := by
  rw [resize_slots_eq db q A hA hch, resize_areas_eq db q A hA hnd hch]
  have hold : ∀ (p : Slot → Bool), (∀ s, p s = true → s.parking_id = A.id) →
      (db.slots.filter (fun s => s.parking_id != A.id)).filter p = [] := by
    intro p hp
    refine List.filter_eq_nil_iff.mpr ?_
    intro s hsm hps
    rcases List.mem_filter.mp hsm with ⟨_, hne⟩
    rw [hp s hps] at hne
    simp at hne
  refine ⟨?_, ?_, ?_, ?_⟩
  · rw [List.filter_append, List.filter_append]
    rw [hold _ (fun s hp => by
      rcases Bool.and_eq_true .. |>.mp hp with ⟨hl, _⟩
      exact beq_iff_eq.mp hl)]
    rw [List.filter_eq_self.mpr (fun s hsm => by
      rcases mem_mkSlots _ _ _ _ s hsm with ⟨hpid, hvt, _, _, _⟩
      simp [hpid, hvt])]
    rw [List.filter_eq_nil_iff.mpr (fun s hsm => by
      rcases mem_mkSlots _ _ _ _ s hsm with ⟨_, hvt, _, _, _⟩
      simp [hvt])]
    rw [List.nil_append, List.append_nil]
    exact mkSlots_map_slot_number _ _ _ _
  · rw [List.filter_append, List.filter_append]
    rw [hold _ (fun s hp => by
      rcases Bool.and_eq_true .. |>.mp hp with ⟨hl, _⟩
      exact beq_iff_eq.mp hl)]
    rw [List.filter_eq_nil_iff.mpr (fun s hsm => by
      rcases mem_mkSlots _ _ _ _ s hsm with ⟨_, hvt, _, _, _⟩
      simp [hvt])]
    rw [List.filter_eq_self.mpr (fun s hsm => by
      rcases mem_mkSlots _ _ _ _ s hsm with ⟨hpid, hvt, _, _, _⟩
      simp [hpid, hvt])]
    rw [List.nil_append, List.nil_append]
    exact mkSlots_map_slot_number _ _ _ _
  · intro s hsm hpid
    rcases List.mem_append.mp hsm with hsm | hsm
    · rcases List.mem_append.mp hsm with hsm | hsm
      · rcases List.mem_filter.mp hsm with ⟨_, hne⟩
        rw [hpid] at hne
        simp at hne
      · rcases mem_mkSlots _ _ _ _ s hsm with ⟨_, _, hst, hcb, _⟩
        exact ⟨hst, hcb⟩
    · rcases mem_mkSlots _ _ _ _ s hsm with ⟨_, _, hst, hcb, _⟩
      exact ⟨hst, hcb⟩
  · rw [find?_updateFirst (fun x => by rfl)]
    rw [hA]
    rfl

/-- The resize request used by the C5 and C9 witnesses: "Lot A" grows to 2
car slots. -/
def exResize : AreaRequest :=
  { name := "9000000009", parking_area_name := "Lot A", lat := 11, lng := 77,
    total_car_slots := 2, total_bike_slots := 1 }

/-- The area record of `exDB`. -/
def exArea0 : ParkingArea :=
  { id := 0, name := "Lot A", lat := 10, lng := 76,
    total_car_slots := 1, available_car_slots := 1, booked_car_slots := 0,
    total_bike_slots := 1, available_bike_slots := 1, booked_bike_slots := 0 }

/-- The area record of `exDB` after the `exResize` resize. -/
def exAreaResized : ParkingArea :=
  { id := 0, name := "Lot A", lat := 11, lng := 77,
    total_car_slots := 2, available_car_slots := 2, booked_car_slots := 0,
    total_bike_slots := 1, available_bike_slots := 1, booked_bike_slots := 0 }

/-- Witness for C5: resizing `exDB` to two car slots yields car slots
numbered 1, 2 and the reset area document. -/
theorem resize_resets_witness :
    ((createOrResizeArea exDB exResize).1.slots.filter
        (fun s => s.parking_id == 0 && s.vehicle_type == "car")).map (·.slot_number) =
      List.range' 1 2 ∧
    (createOrResizeArea exDB exResize).1.areas.find? (fun a => a.name == "Lot A") =
      some exAreaResized := by
  have h := resize_resets exDB exResize exArea0 (by decide) (by decide) (Or.inl (by decide))
  exact ⟨h.1, h.2.2.2⟩

/-! ### C9 -/

/-- C9: a destructive resize deletes and regenerates only the area's
slots; the `bookings` collection is untouched, so every booking active
before the resize is still present and still `active`, and any such
booking whose stored slot id named one of the resized area's slots now
references an id no longer present in the slot store (the regenerated
slots get fresh ids).  `hlt` says every stored slot id precedes the id
supply and `hnds` that slot ids are distinct — both guaranteed by
MongoDB's ObjectId generation and `_id` uniqueness. -/
theorem resize_preserves_bookings (db : DB) (q : AreaRequest) (A : ParkingArea)
    (hA : db.areas.find? (fun a => a.name == q.parking_area_name) = some A)
    (hch : q.total_car_slots ≠ A.total_car_slots ∨ q.total_bike_slots ≠ A.total_bike_slots)
    (hlt : ∀ s ∈ db.slots, s.id < db.nextId)
    (hnds : (db.slots.map (·.id)).Nodup) :
    (createOrResizeArea db q).1.bookings = db.bookings ∧
    (∀ b ∈ db.bookings, b.status = "active" →
        b ∈ (createOrResizeArea db q).1.bookings ∧ b.status = "active") ∧
    (∀ b ∈ db.bookings, ∀ s0 ∈ db.slots, s0.id = b.slot_id → s0.parking_id = A.id →
        ∀ s ∈ (createOrResizeArea db q).1.slots, s.id ≠ b.slot_id) := by
  refine ⟨createOrResizeArea_bookings db q, ?_, ?_⟩
  · intro b hb hact
    rw [createOrResizeArea_bookings db q]
    exact ⟨hb, hact⟩
  · intro b _ s0 hs0 hid hpid s hsmem
    rw [resize_slots_eq db q A hA hch] at hsmem
    rcases List.mem_append.mp hsmem with hsm | hsm
    · rcases List.mem_append.mp hsm with hsm | hsm
      · rcases List.mem_filter.mp hsm with ⟨hmem, hne⟩
        intro heq
        have hss : s = s0 := List.inj_on_of_nodup_map hnds hmem hs0 (by rw [heq, hid])
        rw [hss, hpid] at hne
        simp at hne
      · obtain ⟨-, -, -, -, hge⟩ := mem_mkSlots _ _ _ _ s hsm
        have hl := hlt s0 hs0
        omega
    · obtain ⟨-, -, -, -, hge⟩ := mem_mkSlots _ _ _ _ s hsm
      have hl := hlt s0 hs0
      omega

/-- The car slot of `exDB` while booked by booking 3. -/
def exCarSlotBooked : Slot :=
  { id := 1, parking_id := 0, slot_number := 1, vehicle_type := "car",
    status := "booked", current_booking_id := some 3 }

/-- The active booking occupying the car slot in `exDB2`. -/
def exBooking : Booking :=
  { id := 3, parking_id := 0, slot_id := 1, vehicle_type := "car",
    number_plate := "KL07A1", phone := "9000000001", entry_time := 100,
    status := "active", exit_time := none, amount := none }

/-- The area record of `exDB2`: the car slot is booked. -/
def exArea0Booked : ParkingArea :=
  { id := 0, name := "Lot A", lat := 10, lng := 76,
    total_car_slots := 1, available_car_slots := 0, booked_car_slots := 1,
    total_bike_slots := 1, available_bike_slots := 1, booked_bike_slots := 0 }

/-- Like `exDB`, but with the car slot booked by the active `exBooking`. -/
def exDB2 : DB :=
  { areas := [exArea0Booked],
    slots := [exCarSlotBooked,
      { id := 2, parking_id := 0, slot_number := 1, vehicle_type := "bike",
        status := "available", current_booking_id := none }],
    bookings := [exBooking],
    owners := [], nextId := 4 }

/-- The first regenerated car slot after resizing `exDB2`. -/
def exNewCarSlot : Slot :=
  { id := 4, parking_id := 0, slot_number := 1, vehicle_type := "car",
    status := "available", current_booking_id := none }

/-- Witness for C9: resizing `exDB2` (whose car slot is occupied by the
active `exBooking`) keeps the booking list intact and gives the
regenerated slot a fresh id differing from the booking's stored slot id. -/
theorem resize_preserves_bookings_witness :
    (createOrResizeArea exDB2 exResize).1.bookings = exDB2.bookings ∧
    exBooking ∈ (createOrResizeArea exDB2 exResize).1.bookings ∧
    exNewCarSlot.id ≠ exBooking.slot_id := by
  have h := resize_preserves_bookings exDB2 exResize exArea0Booked
    (by decide) (Or.inl (by decide)) (by decide) (by decide)
  refine ⟨h.1, (h.2.1 exBooking (by decide) rfl).1, ?_⟩
  exact h.2.2 exBooking (by decide) exCarSlotBooked (by decide) rfl rfl
    exNewCarSlot (by decide)

/-! ### C8 -/

/-- C8: `GET /api/users/bookings/:phone` returns exactly the user's
bookings (a permutation of the phone-filtered booking collection), ordered
by `entry_time` descending, and each response element is the stored
booking document itself (ids and all fields unchanged) enriched with the
area's display name — the `'Unknown Location'` fallback when the area
document is missing — and the slot's display number (`none` standing for
the `'Unknown Slot'` fallback). -/
theorem list_user_bookings_spec (db : DB) (phone : String) :
    List.Sorted newerFirst ((listUserBookings db phone).map (·.booking)) ∧
    ((listUserBookings db phone).map (·.booking)).Perm
      (db.bookings.filter (fun b => b.phone == phone)) ∧
    ∀ e ∈ listUserBookings db phone,
      e.booking ∈ db.bookings ∧ e.booking.phone = phone ∧
      e.location = (match db.areas.find? (fun a => a.id == e.booking.parking_id) with
        | some a => a.name
        | none => "Unknown Location") ∧
      e.slot_number = (match db.slots.find? (fun s => s.id == e.booking.slot_id) with
        | some s => some s.slot_number
        | none => none) := by
  have hmap : (listUserBookings db phone).map (·.booking) =
      List.insertionSort newerFirst (db.bookings.filter (fun b => b.phone == phone)) := by
    unfold listUserBookings
    rw [List.map_map]
    exact List.map_id _
  refine ⟨?_, ?_, ?_⟩
  · rw [hmap]
    exact List.sorted_insertionSort newerFirst _
  · rw [hmap]
    exact List.perm_insertionSort newerFirst _
  · intro e he
    unfold listUserBookings at he
    rcases List.mem_map.mp he with ⟨b, hb, rfl⟩
    rw [List.mem_insertionSort] at hb
    rcases List.mem_filter.mp hb with ⟨hmem, hph⟩
    exact ⟨hmem, beq_iff_eq.mp hph, rfl, rfl⟩

/-- A state with two bookings of user 9000000001 stored oldest-first, to
exercise the descending sort and the enrichment. -/
def exDB3 : DB :=
  { areas := [exArea0],
    slots := [exCarSlot],
    bookings := [
      { id := 3, parking_id := 0, slot_id := 1, vehicle_type := "car",
        number_plate := "KL07A1", phone := "9000000001", entry_time := 100,
        status := "completed", exit_time := some 150, amount := some 40 },
      { id := 4, parking_id := 0, slot_id := 1, vehicle_type := "car",
        number_plate := "KL07A1", phone := "9000000001", entry_time := 300,
        status := "active", exit_time := none, amount := none }],
    owners := [], nextId := 5 }

/-- The newest booking of `exDB3`, enriched as the endpoint returns it. -/
def exEnriched : EnrichedBooking :=
  { booking :=
      { id := 4, parking_id := 0, slot_id := 1, vehicle_type := "car",
        number_plate := "KL07A1", phone := "9000000001", entry_time := 300,
        status := "active", exit_time := none, amount := none },
    location := "Lot A", slot_number := some 1 }

/-- Witness for C8: in `exDB3` the newest-first response element carries
the stored booking, the area name "Lot A" and slot number 1. -/
theorem list_user_bookings_spec_witness :
    exEnriched.booking ∈ exDB3.bookings ∧ exEnriched.booking.phone = "9000000001" ∧
    exEnriched.location = (match exDB3.areas.find?
        (fun a => a.id == exEnriched.booking.parking_id) with
      | some a => a.name
      | none => "Unknown Location") ∧
    exEnriched.slot_number = (match exDB3.slots.find?
        (fun s => s.id == exEnriched.booking.slot_id) with
      | some s => some s.slot_number
      | none => none) :=
  (list_user_bookings_spec exDB3 "9000000001").2.2 exEnriched (by decide)

/-! ### C2 -/

/-- A second caller racing `exReserve` for the same car slot. -/
def exReserve2 : ReserveRequest :=
  { parking_id := 0, slot_id := 1, vehicle_type := "car",
    number_plate := "KL07B2", phone := "9000000002", entry_time := 101 }

/-- C2 is refuted by the code: the reservation is not an atomic
conditional update.  The availability check (`findOne`, server.js lines
261-264, embedded as `reserveCheck`) and the writes (lines 266-289,
embedded as `reserveWrites`) are separate round trips to the store with no
transaction or conditional write.  In the interleaving where two handlers
for the same available slot both run their check before either writes,
both checks pass — so both callers are answered "Slot booked" — and both
write phases land: the slot ends with two active bookings, and the area's
`booked_car` counter rises by 2 while `available_car` falls to -1,
contradicting "exactly one succeeds and booked increases by exactly 1". -/
theorem reserve_race_double_books :
    reserveCheck exDB exReserve.slot_id = some exCarSlot ∧
    reserveCheck exDB exReserve2.slot_id = some exCarSlot ∧
    ((reserveWrites (reserveWrites exDB exReserve).2 exReserve2).2.bookings.filter
        (activeFor 1)).length = 2 ∧
    (reserveWrites (reserveWrites exDB exReserve).2 exReserve2).2.areas.map
        (fun a => (a.available_car_slots, a.booked_car_slots)) = [(-1, 2)] := by
  decide

/-! ### C3 -/

/-- A completion request for slot 1 whose supplied vehicle type ("bike")
contradicts the stored booking's type ("car"). -/
def exCompleteBike : CompleteRequest :=
  { slot_id := 1, parking_id := 0, vehicle_type := "bike",
    exit_time := 200, amount := 50 }

/-- C3 is refuted by the code: the completion handler picks the `$inc`
branch from the *request's* `vehicle_type` (server.js line 579), not from
the stored booking or slot.  In `exDB2` the active booking on slot 1 has
stored type "car", yet completing it with a request saying "bike" succeeds,
leaves the car counters untouched (`available_car = 0, booked_car = 1`)
and corrupts the bike counters (`available_bike = 2, booked_bike = -1`) —
the opposite of the claim that the stored type's counters are adjusted. -/
theorem complete_uses_request_vehicle_type :
    (exDB2.bookings.find? (activeFor 1)).map (·.vehicle_type) = some "car" ∧
    (completeBooking exDB2 exCompleteBike).1 = .completed ∧
    (completeBooking exDB2 exCompleteBike).2.areas.map
        (fun a => (a.available_car_slots, a.booked_car_slots,
                   a.available_bike_slots, a.booked_bike_slots)) = [(0, 1, 2, -1)] := by
  decide

end Parking
